import Mathlib

/-!
Verification of the BetoCQ D2D performance measurement and scoring engine
(`src/tests/bettertogether/betocq/d2d_performance_test_base.py`).

The companion module `betocq/nc_constants.py` (enumerations, dataclasses and
numeric constants) is part of the repository but is not present under `src/`;
every definition below whose doc comment starts with `Modelled from the spec:`
stands in for a piece of that missing module, following the spec's words.
All other definitions are translated directly from
`d2d_performance_test_base.py`.

Numeric conventions of the embedding: Python floats are modelled as exact
rationals (ℚ); Python `int(x)` (truncation toward zero) is `pyIntTrunc`;
Python `round(x, n)` (round-half-to-even) is `pyRoundTo n`; `timedelta`
latencies are modelled by their `total_seconds()` value in ℚ.
-/

namespace Betocq

/-- Modelled from the spec: the closed failure-reason enumeration of
`nc_constants.SingleTestFailureReason` ("a closed enumeration including at
least: SUCCESS, UNINITIALIZED, SOURCE_WIFI_CONNECTION, TARGET_WIFI_CONNECTION,
WIFI_MEDIUM_UPGRADE, FILE_TRANSFER_FAIL, FILE_TRANSFER_THROUGHPUT_LOW"). -/
inductive SingleTestFailureReason where
  | UNINITIALIZED
  | SUCCESS
  | SOURCE_WIFI_CONNECTION
  | TARGET_WIFI_CONNECTION
  | WIFI_MEDIUM_UPGRADE
  | FILE_TRANSFER_FAIL
  | FILE_TRANSFER_THROUGHPUT_LOW
  deriving DecidableEq, Repr

/-- Python's `.name` attribute of the `SingleTestFailureReason` enum members. -/
def reasonName : SingleTestFailureReason → String
  | .UNINITIALIZED => "UNINITIALIZED"
  | .SUCCESS => "SUCCESS"
  | .SOURCE_WIFI_CONNECTION => "SOURCE_WIFI_CONNECTION"
  | .TARGET_WIFI_CONNECTION => "TARGET_WIFI_CONNECTION"
  | .WIFI_MEDIUM_UPGRADE => "WIFI_MEDIUM_UPGRADE"
  | .FILE_TRANSFER_FAIL => "FILE_TRANSFER_FAIL"
  | .FILE_TRANSFER_THROUGHPUT_LOW => "FILE_TRANSFER_THROUGHPUT_LOW"

/-- Modelled from the spec: `nc_constants.NearbyConnectionMedium`, "a closed
enumeration of transport choices (e.g., Bluetooth-only, Wi-Fi LAN, Wi-Fi
Direct, Wi-Fi Hotspot, BLE-only)". -/
inductive NearbyConnectionMedium where
  | BT_ONLY
  | BLE_ONLY
  | WIFI_LAN
  | WIFI_DIRECT
  | WIFI_HOTSPOT
  deriving DecidableEq, Repr

/-- Python `int(x)` applied to a (here: exact) float value: truncation toward
zero. -/
def pyIntTrunc (x : ℚ) : ℤ :=
  if 0 ≤ x then ⌊x⌋ else -⌊-x⌋

/-- Python `round(x)` to an integer: round half to even (banker's rounding),
on the exact rational value. -/
def pyRoundHalfEven (x : ℚ) : ℤ :=
  if x - ⌊x⌋ < 1/2 then ⌊x⌋
  else if 1/2 < x - ⌊x⌋ then ⌊x⌋ + 1
  else if ⌊x⌋ % 2 = 0 then ⌊x⌋ else ⌊x⌋ + 1

/-- Python `round(x, digits)`: round half to even at `digits` decimal places,
on the exact rational value. -/
def pyRoundTo (digits : ℕ) (x : ℚ) : ℚ :=
  (pyRoundHalfEven (x * (10 : ℚ) ^ digits) : ℚ) / (10 : ℚ) ^ digits

/-- Modelled from the spec: `nc_constants.UNSET_THROUGHPUT_KBPS`, the "unset"
sentinel for a throughput that was never measured ("sentinel values for
'unset' duration/throughput (`-1`, `UNSET_LATENCY`)"). -/
def UNSET_THROUGHPUT_KBPS : ℚ := -1

/-- Modelled from the spec: `nc_constants.UNSET_LATENCY`, the "unset" sentinel
for a latency that was never measured, by its seconds value. -/
def UNSET_LATENCY : ℚ := -1

/-- Modelled from the spec: `nc_constants.PERCENTILE_50_FACTOR`; the spec's
percentile index formula is `floor(count × percentile_fraction)` with the
default 50th percentile, so the factor is 0.5. -/
def PERCENTILE_50_FACTOR : ℚ := 1/2

/-- Modelled from the spec: `nc_constants.SUCCESS_RATE_TARGET`, "a fixed
target ratio, e.g. 0.8". -/
def SUCCESS_RATE_TARGET : ℚ := 4/5

/-- Modelled from the spec: `nc_constants.LATENCY_PRECISION_DIGITS`, the
decimal precision used when reporting latency statistics (one decimal place,
matching the one-decimal precision the spec fixes for throughput reporting). -/
def LATENCY_PRECISION_DIGITS : ℕ := 1

/-- Modelled from the spec: `nc_constants.TestResultStats`, the "derived
percentile summary (success_count, min, median/50th-percentile, max)". -/
structure TestResultStats where
  success_count : ℕ
  min_val : ℚ
  median_val : ℚ
  max_val : ℚ
  deriving DecidableEq, Repr

/-- `__convert_kbps_to_mbps`: `round(throughput_kbps / 1024, 1)`. -/
def convertKbpsToMbps (throughput_kbps : ℚ) : ℚ :=
  pyRoundTo 1 (throughput_kbps / 1024)

/-- The percentile index
`int(len(filtered) * nc_constants.PERCENTILE_50_FACTOR)` used by both
statistics functions, as a natural number. -/
def percentileIndex (n : ℕ) : ℕ :=
  (pyIntTrunc ((n : ℚ) * PERCENTILE_50_FACTOR)).toNat

/-- Python `filtered.sort(reverse=True)`: stable sort into descending order. -/
def sortDesc (l : List ℚ) : List ℚ :=
  l.insertionSort (fun a b => b ≤ a)

/-- Python `filtered.sort()`: stable sort into ascending order. -/
def sortAsc (l : List ℚ) : List ℚ :=
  l.insertionSort (fun a b => a ≤ b)

/-- `__get_transfer_stats`, with the list-indexing default made explicit
(`d` is what `List.getD` returns exactly when the corresponding Python index
would be out of range). -/
def getTransferStatsD (d : ℚ) (throughput_indicators : List ℚ) :
    TestResultStats :=
  let filtered := throughput_indicators.filter
    (fun x => x ≠ UNSET_THROUGHPUT_KBPS)
  if filtered = [] then
    ⟨0, 0, 0, 0⟩
  else
    let s := sortDesc filtered
    ⟨s.length,
     convertKbpsToMbps (s.getD (s.length - 1) d),
     convertKbpsToMbps (s.getD (percentileIndex s.length) d),
     convertKbpsToMbps (s.getD 0 d)⟩

/-- `__get_transfer_stats`: min, median and max throughput (in MBps) over the
iterations which finished the file transfer. -/
def getTransferStats (throughput_indicators : List ℚ) : TestResultStats :=
  getTransferStatsD 0 throughput_indicators

/-- `__get_latency_stats`, with the list-indexing default made explicit. -/
def getLatencyStatsD (d : ℚ) (latency_indicators : List ℚ) :
    TestResultStats :=
  let filtered := latency_indicators.filter (fun x => x ≠ UNSET_LATENCY)
  if filtered = [] then
    ⟨0, 0, 0, 0⟩
  else
    let s := sortAsc filtered
    ⟨s.length,
     pyRoundTo LATENCY_PRECISION_DIGITS (s.getD 0 d),
     pyRoundTo LATENCY_PRECISION_DIGITS (s.getD (percentileIndex s.length) d),
     pyRoundTo LATENCY_PRECISION_DIGITS (s.getD (s.length - 1) d)⟩

/-- `__get_latency_stats`: count, min, 50th percentile and max of the measured
latencies, in seconds. -/
def getLatencyStats (latency_indicators : List ℚ) : TestResultStats :=
  getLatencyStatsD 0 latency_indicators

/-- Modelled from the spec: the fields of `nc_constants.SingleTestResult`
("one benchmark iteration's outcome") that the claims under verification
depend on; connection-quality subrecords are elided because the verified code
paths only copy them through. -/
structure SingleTestResult where
  discoverer_sta_expected : Bool := false
  discoverer_sta_latency : ℚ := UNSET_LATENCY
  advertiser_wifi_expected : Bool := false
  advertiser_sta_latency : ℚ := UNSET_LATENCY
  file_transfer_throughput_kbps : ℚ := UNSET_THROUGHPUT_KBPS
  failure_reason : SingleTestFailureReason := .UNINITIALIZED
  result_message : String := ""
  test_iteration : ℕ := 0
  is_failed_with_prior_bt : Bool := false
  deriving DecidableEq, Repr

/-- The triage-tip tables consulted by `_get_current_test_result_message`:
`common` is `nc_constants.COMMON_TRIAGE_TIP` (modelled from the spec: "each
maps to a fixed human-readable triage tip"); `mediumUpgrade` is the value of
`_get_medium_upgrade_failure_tip()`, `fileTransfer` of
`_get_file_transfer_failure_tip()` (abstract method) and `throughputLow` of
`_get_throughput_low_tip()` (abstract method) for the concrete test class. -/
structure TriageTips where
  common : SingleTestFailureReason → String
  mediumUpgrade : String
  fileTransfer : String
  throughputLow : String

/-- `_get_current_test_result_message`: the per-iteration result message,
as a function of `_use_prior_bt`, `_prior_bt_nc_fail_reason`,
`_active_nc_fail_reason` and the triage-tip tables. -/
def getCurrentTestResultMessage (usePriorBt : Bool)
    (priorReason activeReason : SingleTestFailureReason)
    (tips : TriageTips) : String :=
  if usePriorBt = true ∧ priorReason ≠ .SUCCESS then
    "FAIL (The prior BT connection): " ++ reasonName priorReason ++ " - " ++
      tips.common priorReason
  else if activeReason = .SUCCESS then
    "PASS"
  else if activeReason = .SOURCE_WIFI_CONNECTION then
    "FAIL: " ++ reasonName activeReason ++ " - " ++ tips.common activeReason
  else if activeReason = .WIFI_MEDIUM_UPGRADE then
    "FAIL: " ++ reasonName activeReason ++ " - " ++ tips.mediumUpgrade
  else if activeReason = .FILE_TRANSFER_FAIL then
    reasonName activeReason ++ " - " ++ tips.fileTransfer
  else if activeReason = .FILE_TRANSFER_THROUGHPUT_LOW then
    reasonName activeReason ++ " - " ++ tips.throughputLow
  else
    reasonName activeReason ++ " - " ++ tips.common activeReason

/-- `_write_current_test_report`, restricted to its effect on the current
`SingleTestResult` record (iteration number, prior-BT masking of the failure
reason, and the result message). -/
def writeCurrentTestReport (usePriorBt : Bool)
    (priorReason activeReason : SingleTestFailureReason)
    (tips : TriageTips) (finishedIteration : ℕ)
    (r : SingleTestResult) : SingleTestResult :=
  let r0 := { r with test_iteration := finishedIteration }
  let r1 :=
    if usePriorBt = true ∧ priorReason ≠ .SUCCESS then
      { r0 with is_failed_with_prior_bt := true, failure_reason := priorReason }
    else
      { r0 with failure_reason := activeReason }
  { r1 with result_message :=
      getCurrentTestResultMessage usePriorBt priorReason activeReason tips }

/-- The `success_count` of `_summary_test_results`: the number of recorded
iterations whose failure reason is `SUCCESS`. -/
def successCount (results : List SingleTestResult) : ℕ :=
  (results.filter (fun t => t.failure_reason = .SUCCESS)).length

/-- The `passed` flag of `_summary_test_results`:
`success_count >= int(performance_test_iterations * SUCCESS_RATE_TARGET)`. -/
def summaryPassed (performance_test_iterations : ℕ)
    (results : List SingleTestResult) : Bool :=
  decide (pyIntTrunc ((performance_test_iterations : ℚ) * SUCCESS_RATE_TARGET)
    ≤ (successCount results : ℤ))

/-- The `final_result_message` of `_summary_test_results`. -/
def summaryFinalResultMessage (performance_test_iterations : ℕ)
    (results : List SingleTestResult) : String :=
  if summaryPassed performance_test_iterations results then "PASS"
  else "FAIL: low successes - " ++ toString (successCount results)

/-- The per-device radio-capability attributes read by
`_get_throughout_benchmark`. -/
structure DeviceCapabilities where
  max_num_streams : ℕ
  max_num_streams_dbs : ℕ
  max_phy_rate_2g_mbps : ℕ
  max_phy_rate_5g_mbps : ℕ
  deriving DecidableEq, Repr

/-- The numeric constants of `nc_constants` consumed by
`_get_throughout_benchmark`, kept abstract so that theorems hold for any
choice of their values. -/
structure BenchmarkConstants where
  maxPhyRatePerStreamN20 : ℚ
  maxPhyRatePerStreamAc80 : ℚ
  maxPhyRatePerStreamAc40 : ℚ
  throughputRatio2g : ℚ
  throughputRatio5g : ℚ
  mccMultiplier : ℚ
  wifiHotspotMultiplier : ℚ
  wifiLanThroughputMaxMbps : ℤ
  deriving DecidableEq, Repr

/-- Modelled from the spec: one concrete valuation of the `nc_constants`
benchmark constants (their numeric values are not under `src/`). The values
are chosen to satisfy the spec's qualitative constraints: positive per-stream
PHY rates with the 40-MHz-class rate below the 80-MHz-class rate, band
ratios in (0,1), and strict penalty multipliers in (0,1) for MCC and
Wi-Fi-Hotspot scenarios. -/
def specConstants : BenchmarkConstants where
  maxPhyRatePerStreamN20 := 72
  maxPhyRatePerStreamAc80 := 433
  maxPhyRatePerStreamAc40 := 200
  throughputRatio2g := 2/5
  throughputRatio5g := 2/5
  mccMultiplier := 1/4
  wifiHotspotMultiplier := 1/2
  wifiLanThroughputMaxMbps := 40

/-- `_get_throughout_benchmark` (returns KBps, i.e. the MB/s value times
1024), as a function of the two devices' capabilities, the advertiser's
observed STA association (`mFrequency`, `mMaxSupportedTxLinkSpeed`), the
scenario flags `_is_2g_d2d_wifi_medium`, `_is_dbs_mode`, `_is_mcc`, and the
negotiated upgrade medium recorded in
`_current_test_result.file_transfer_nc_setup_quality_info.upgrade_medium`. -/
def getThroughputBenchmark (c : BenchmarkConstants)
    (disc adv : DeviceCapabilities)
    (staFrequency staMaxLinkSpeedMbps : ℤ)
    (is2gD2dWifiMedium isDbsMode isMcc : Bool)
    (upgradeMedium : NearbyConnectionMedium) : ℤ :=
  let maxNumStreams : ℕ := min disc.max_num_streams adv.max_num_streams
  if is2gD2dWifiMedium then
    let maxPhyRateMbps : ℚ :=
      min (min (disc.max_phy_rate_2g_mbps : ℚ) (adv.max_phy_rate_2g_mbps : ℚ))
        ((maxNumStreams : ℚ) * c.maxPhyRatePerStreamN20)
    pyIntTrunc (maxPhyRateMbps * c.throughputRatio2g / 8) * 1024
  else
    let maxNumStreams : ℕ :=
      if isDbsMode then adv.max_num_streams_dbs else maxNumStreams
    let maxPhyRateAc80 : ℚ := (maxNumStreams : ℚ) * c.maxPhyRatePerStreamAc80
    let rate1 : ℚ :=
      min (min (disc.max_phy_rate_5g_mbps : ℚ) (adv.max_phy_rate_5g_mbps : ℚ))
        maxPhyRateAc80
    let rate2 : ℚ :=
      if 5000 < staFrequency ∧ 0 < staMaxLinkSpeedMbps ∧
          (staMaxLinkSpeedMbps : ℚ) < maxPhyRateAc80 then
        min rate1 ((maxNumStreams : ℚ) * c.maxPhyRatePerStreamAc40)
      else rate1
    let t0 : ℤ := pyIntTrunc (rate2 * c.throughputRatio5g / 8)
    let t1 : ℤ := if isMcc then pyIntTrunc ((t0 : ℚ) * c.mccMultiplier) else t0
    let t2 : ℤ :=
      if upgradeMedium = .WIFI_HOTSPOT then
        pyIntTrunc ((t1 : ℚ) * c.wifiHotspotMultiplier)
      else t1
    let t3 : ℤ :=
      if upgradeMedium = .WIFI_LAN then min t2 c.wifiLanThroughputMaxMbps
      else t2
    t3 * 1024

/-- The band-limited 5-GHz base value of the benchmark (the MB/s value before
any scenario adjustment): stream-count and link-speed limited PHY rate times
the 5G ratio, divided by 8 bits per byte and truncated. -/
def base5g (c : BenchmarkConstants) (disc adv : DeviceCapabilities)
    (staFrequency staMaxLinkSpeedMbps : ℤ) (isDbsMode : Bool) : ℤ :=
  let maxNumStreams : ℕ :=
    if isDbsMode then adv.max_num_streams_dbs
    else min disc.max_num_streams adv.max_num_streams
  let maxPhyRateAc80 : ℚ := (maxNumStreams : ℚ) * c.maxPhyRatePerStreamAc80
  let rate1 : ℚ :=
    min (min (disc.max_phy_rate_5g_mbps : ℚ) (adv.max_phy_rate_5g_mbps : ℚ))
      maxPhyRateAc80
  let rate2 : ℚ :=
    if 5000 < staFrequency ∧ 0 < staMaxLinkSpeedMbps ∧
        (staMaxLinkSpeedMbps : ℚ) < maxPhyRateAc80 then
      min rate1 ((maxNumStreams : ℚ) * c.maxPhyRatePerStreamAc40)
    else rate1
  pyIntTrunc (rate2 * c.throughputRatio5g / 8)

/-- The band-limited 2.4-GHz base value of the benchmark (the MB/s value). -/
def base2g (c : BenchmarkConstants) (disc adv : DeviceCapabilities) : ℤ :=
  let maxNumStreams : ℕ := min disc.max_num_streams adv.max_num_streams
  let maxPhyRateMbps : ℚ :=
    min (min (disc.max_phy_rate_2g_mbps : ℚ) (adv.max_phy_rate_2g_mbps : ℚ))
      ((maxNumStreams : ℚ) * c.maxPhyRatePerStreamN20)
  pyIntTrunc (maxPhyRateMbps * c.throughputRatio2g / 8)

/-- The MCC scenario adjustment the spec describes: multiply by the MCC
penalty factor when the scenario forces MCC. -/
def mccStep (c : BenchmarkConstants) (isMcc : Bool) (t : ℤ) : ℤ :=
  if isMcc then pyIntTrunc ((t : ℚ) * c.mccMultiplier) else t

/-- The Wi-Fi-Hotspot scenario adjustment the spec describes: multiply by the
hotspot penalty factor when the negotiated upgrade medium is Wi-Fi Hotspot. -/
def hotspotStep (c : BenchmarkConstants) (medium : NearbyConnectionMedium)
    (t : ℤ) : ℤ :=
  if medium = .WIFI_HOTSPOT then pyIntTrunc ((t : ℚ) * c.wifiHotspotMultiplier)
  else t

/-- The Wi-Fi-LAN scenario adjustment the spec describes: cap (via `min`) at
the fixed LAN throughput ceiling when the negotiated medium is Wi-Fi LAN. -/
def lanCapStep (c : BenchmarkConstants) (medium : NearbyConnectionMedium)
    (t : ℤ) : ℤ :=
  if medium = .WIFI_LAN then min t c.wifiLanThroughputMaxMbps else t

/-- The outcome of step 5 of `_test_connection_medium_performance` (the
`finally` block after `transfer_file`): the resulting
`_active_nc_fail_reason`, the benchmark value if it was recomputed (`none`
when the benchmark computation never ran) and whether `asserts.fail` was
raised. -/
structure TransferCheckOutcome where
  reason : SingleTestFailureReason
  benchmarkComputed : Option ℤ
  assertionFailed : Bool
  deriving DecidableEq, Repr

/-- The throughput-threshold logic in the `finally` block of step 5 of
`_test_connection_medium_performance`: the failure reason is taken from the
snippet; only if it is `SUCCESS` is the benchmark recomputed and compared,
and a measured throughput below the benchmark turns the reason into
`FILE_TRANSFER_THROUGHPUT_LOW` with a hard `asserts.fail`. -/
def transferThresholdCheck (snippetReason : SingleTestFailureReason)
    (measuredKbps benchmarkKbps : ℤ) : TransferCheckOutcome :=
  if snippetReason = .SUCCESS then
    if measuredKbps < benchmarkKbps then
      ⟨.FILE_TRANSFER_THROUGHPUT_LOW, some benchmarkKbps, true⟩
    else
      ⟨.SUCCESS, some benchmarkKbps, false⟩
  else
    ⟨snippetReason, none, false⟩

/-- The two teardown calls of `_test_connection_medium_performance`
(steps 6 and 7): `prior_bt_snippet.disconnect_endpoint()` and
`active_snippet.disconnect_endpoint()`. -/
inductive CallEvent where
  | priorBtDisconnect
  | activeDisconnect
  deriving DecidableEq, Repr

/-- The configuration of one call to `_test_connection_medium_performance`:
whether a `wifi_ssid` was supplied, and whether a prior BT connection is set
up (`not force_disable_bt_multiplex and test_parameters.requires_bt_multiplex`). -/
structure IterationConfig where
  hasWifiSsid : Bool
  usePriorBt : Bool
  deriving DecidableEq, Repr

/-- The environment-determined outcomes of the blocking device calls made
during one iteration: whether each stage's call raises, the failure reason
the active snippet reports after `transfer_file`, and the measured/benchmark
throughputs for the threshold check. -/
structure IterationOutcomes where
  sourceWifiOk : Bool
  priorStartRaises : Bool
  targetWifiOk : Bool
  activeStartRaises : Bool
  transferRaises : Bool
  transferReason : SingleTestFailureReason
  measuredKbps : ℤ
  benchmarkKbps : ℤ
  deriving DecidableEq, Repr

/-- The control flow of `_test_connection_medium_performance` with Python
`try`/`finally` semantics made explicit, projected onto the two
`disconnect_endpoint()` teardown calls: returns the list of disconnect calls
that execute and whether the method returns normally (`false` means an
exception — including `asserts.fail` — propagates out of the method). The
disconnect calls at steps 6 and 7 sit after, not inside, the `try`/`finally`
blocks, so any propagating exception skips them. -/
def runIteration (cfg : IterationConfig) (o : IterationOutcomes) :
    List CallEvent × Bool :=
  if cfg.hasWifiSsid = true ∧ o.sourceWifiOk = false then
    ([], false)
  else if cfg.usePriorBt = true ∧ o.priorStartRaises = true then
    ([], false)
  else if cfg.hasWifiSsid = true ∧ o.targetWifiOk = false then
    ([], false)
  else if o.activeStartRaises = true then
    ([], false)
  else if o.transferReason = .SUCCESS ∧ o.measuredKbps < o.benchmarkKbps then
    ([], false)
  else if o.transferRaises = true then
    ([], false)
  else
    ((if cfg.usePriorBt then [CallEvent.priorBtDisconnect] else []) ++
      [CallEvent.activeDisconnect], true)

section HelperLemmas

/-- For non-negative arguments, Python truncation agrees with the floor. -/
theorem pyIntTrunc_of_nonneg {x : ℚ} (h : 0 ≤ x) : pyIntTrunc x = ⌊x⌋ := by
  simp [pyIntTrunc, h]

/-- The percentile index is the natural floor of `count × 0.5`. -/
theorem percentileIndex_eq_natFloor (n : ℕ) :
    percentileIndex n = Nat.floor ((n : ℚ) * PERCENTILE_50_FACTOR) := by
  have h0 : (0 : ℚ) ≤ (n : ℚ) * PERCENTILE_50_FACTOR := by
    have : (0 : ℚ) ≤ (n : ℚ) := by positivity
    simp only [PERCENTILE_50_FACTOR]
    positivity
  rw [percentileIndex, pyIntTrunc_of_nonneg h0, Int.floor_toNat]

/-- The percentile index is the half of the count, rounded down. -/
theorem percentileIndex_eq_half (n : ℕ) : percentileIndex n = n / 2 := by
  rw [percentileIndex_eq_natFloor, PERCENTILE_50_FACTOR]
  have h : (n : ℚ) * (1/2) = (n : ℚ) / (2 : ℕ) := by push_cast; ring
  rw [h, Nat.floor_div_nat]
  simp

/-- The percentile index is strictly less than a positive count. -/
theorem percentileIndex_lt (n : ℕ) (h : 0 < n) : percentileIndex n < n := by
  rw [percentileIndex_eq_half]
  exact Nat.div_lt_self h (by norm_num)

instance : IsTotal ℚ (fun a b => b ≤ a) := ⟨fun a b => le_total b a⟩

instance : IsTrans ℚ (fun a b => b ≤ a) :=
  ⟨fun _ _ _ hab hbc => le_trans hbc hab⟩

/-- The sorted list in `getTransferStatsD` has the length of the filtered
list. -/
theorem sortDesc_length (l : List ℚ) : (sortDesc l).length = l.length :=
  List.length_insertionSort _ l

/-- The sorted list in `getLatencyStatsD` has the length of the filtered
list. -/
theorem sortAsc_length (l : List ℚ) : (sortAsc l).length = l.length :=
  List.length_insertionSort _ l

/-- `List.getD` at an in-bounds index does not depend on the default. -/
theorem getD_default_congr (l : List ℚ) {i : ℕ} (d d' : ℚ)
    (h : i < l.length) : l.getD i d = l.getD i d' := by
  rw [List.getD_eq_getElem l d h, List.getD_eq_getElem l d' h]

end HelperLemmas

/-- C10: both statistics functions are total: whenever the sentinel-filtered
list is non-empty, the accessed indices `0`, `count - 1` and
`int(count * 0.5)` are all in bounds, so the returned statistics do not
depend on the out-of-range default `d` — no input list can make either
function perform an out-of-range access. -/
theorem stats_functions_total :
    (∀ (l : List ℚ) (d : ℚ), getTransferStatsD d l = getTransferStats l) ∧
    (∀ (l : List ℚ) (d : ℚ), getLatencyStatsD d l = getLatencyStats l) ∧
    (∀ n : ℕ, 0 < n → percentileIndex n < n ∧ n - 1 < n ∧ 0 < n) := by
  refine ⟨?_, ?_, ?_⟩
  · intro l d
    rw [getTransferStats]
    unfold getTransferStatsD
    dsimp only
    split_ifs with hcond
    · rfl
    · have hlen : 0 < (sortDesc (l.filter
          (fun x => x ≠ UNSET_THROUGHPUT_KBPS))).length := by
        rw [sortDesc_length]
        exact List.length_pos.2 hcond
      simp only [TestResultStats.mk.injEq]
      refine ⟨trivial, ?_, ?_, ?_⟩
      · exact congrArg convertKbpsToMbps (getD_default_congr _ d 0 (by omega))
      · exact congrArg convertKbpsToMbps
          (getD_default_congr _ d 0 (percentileIndex_lt _ hlen))
      · exact congrArg convertKbpsToMbps (getD_default_congr _ d 0 hlen)
  · intro l d
    rw [getLatencyStats]
    unfold getLatencyStatsD
    dsimp only
    split_ifs with hcond
    · rfl
    · have hlen : 0 < (sortAsc (l.filter
          (fun x => x ≠ UNSET_LATENCY))).length := by
        rw [sortAsc_length]
        exact List.length_pos.2 hcond
      simp only [TestResultStats.mk.injEq]
      refine ⟨trivial, ?_, ?_, ?_⟩
      · exact congrArg (pyRoundTo LATENCY_PRECISION_DIGITS)
          (getD_default_congr _ d 0 hlen)
      · exact congrArg (pyRoundTo LATENCY_PRECISION_DIGITS)
          (getD_default_congr _ d 0 (percentileIndex_lt _ hlen))
      · exact congrArg (pyRoundTo LATENCY_PRECISION_DIGITS)
          (getD_default_congr _ d 0 (by omega))
  · intro n hn
    exact ⟨percentileIndex_lt n hn, by omega, hn⟩

/-- Witness for C10 at concrete inputs: the default value does not influence
the result for a one-element series, and the index bounds hold at count 1. -/
theorem stats_functions_total_witness :
    getTransferStatsD 5 [100] = getTransferStats [100] ∧
    getLatencyStatsD 7 [3] = getLatencyStats [3] ∧
    (percentileIndex 1 < 1 ∧ 1 - 1 < 1 ∧ 0 < 1) :=
  ⟨stats_functions_total.1 [100] 5, stats_functions_total.2.1 [3] 7,
    stats_functions_total.2.2 1 (by decide)⟩

/-- C7: both statistics functions ignore entries equal to their "unset"
sentinel (prepending a sentinel entry never changes the result), and a series
consisting only of sentinel entries yields `TestResultStats(0, 0, 0, 0)`. -/
theorem stats_sentinel_exclusion :
    (∀ l : List ℚ, getTransferStats (UNSET_THROUGHPUT_KBPS :: l) =
      getTransferStats l) ∧
    (∀ l : List ℚ, getLatencyStats (UNSET_LATENCY :: l) =
      getLatencyStats l) ∧
    (∀ l : List ℚ, (∀ x ∈ l, x = UNSET_THROUGHPUT_KBPS) →
      getTransferStats l = ⟨0, 0, 0, 0⟩) ∧
    (∀ l : List ℚ, (∀ x ∈ l, x = UNSET_LATENCY) →
      getLatencyStats l = ⟨0, 0, 0, 0⟩) := by
  refine ⟨?_, ?_, ?_, ?_⟩
  · intro l
    rw [getTransferStats, getTransferStats]
    unfold getTransferStatsD
    have hfilter : (UNSET_THROUGHPUT_KBPS :: l).filter
        (fun x => x ≠ UNSET_THROUGHPUT_KBPS) =
        l.filter (fun x => x ≠ UNSET_THROUGHPUT_KBPS) := by
      rw [List.filter_cons_of_neg]
      simp
    rw [hfilter]
  · intro l
    rw [getLatencyStats, getLatencyStats]
    unfold getLatencyStatsD
    have hfilter : (UNSET_LATENCY :: l).filter (fun x => x ≠ UNSET_LATENCY) =
        l.filter (fun x => x ≠ UNSET_LATENCY) := by
      rw [List.filter_cons_of_neg]
      simp
    rw [hfilter]
  · intro l h
    have hf : l.filter (fun x => x ≠ UNSET_THROUGHPUT_KBPS) = [] := by
      rw [List.filter_eq_nil_iff]
      intro a ha
      simp [h a ha]
    rw [getTransferStats]
    unfold getTransferStatsD
    dsimp only
    rw [hf]
    simp
  · intro l h
    have hf : l.filter (fun x => x ≠ UNSET_LATENCY) = [] := by
      rw [List.filter_eq_nil_iff]
      intro a ha
      simp [h a ha]
    rw [getLatencyStats]
    unfold getLatencyStatsD
    dsimp only
    rw [hf]
    simp

/-- Witness for C7 at concrete inputs: an all-sentinel latency series and an
all-sentinel throughput series both produce the all-zero statistics. -/
theorem stats_sentinel_exclusion_witness :
    getTransferStats [UNSET_THROUGHPUT_KBPS, UNSET_THROUGHPUT_KBPS] =
      ⟨0, 0, 0, 0⟩ ∧
    getLatencyStats [UNSET_LATENCY, UNSET_LATENCY] = ⟨0, 0, 0, 0⟩ :=
  ⟨stats_sentinel_exclusion.2.2.1 _ (by simp),
    stats_sentinel_exclusion.2.2.2 _ (by simp)⟩

/-- C3: throughput statistics are computed over the non-sentinel values
sorted descending, the median is taken at index `floor(count × 0.5)` of the
descending list, every reported value passes through `round(x/1024, 1)` (KBps
to MBps), latency statistics sort ascending instead, and the series
`[100, 300, 200]` KBps yields count 3, median `round(200/1024, 1)`, min
`round(100/1024, 1)` and max `round(300/1024, 1)`. -/
theorem transfer_stats_descending_median :
    (∀ l : List ℚ,
      l.filter (fun x => x ≠ UNSET_THROUGHPUT_KBPS) ≠ [] →
      ∃ s : List ℚ,
        s.Perm (l.filter (fun x => x ≠ UNSET_THROUGHPUT_KBPS)) ∧
        s.Sorted (fun a b => b ≤ a) ∧
        getTransferStats l =
          ⟨s.length,
           convertKbpsToMbps (s.getD (s.length - 1) 0),
           convertKbpsToMbps
             (s.getD (Nat.floor ((s.length : ℚ) * PERCENTILE_50_FACTOR)) 0),
           convertKbpsToMbps (s.getD 0 0)⟩) ∧
    (∀ l : List ℚ,
      l.filter (fun x => x ≠ UNSET_LATENCY) ≠ [] →
      ∃ s : List ℚ,
        s.Perm (l.filter (fun x => x ≠ UNSET_LATENCY)) ∧
        s.Sorted (fun a b => a ≤ b) ∧
        getLatencyStats l =
          ⟨s.length,
           pyRoundTo LATENCY_PRECISION_DIGITS (s.getD 0 0),
           pyRoundTo LATENCY_PRECISION_DIGITS
             (s.getD (Nat.floor ((s.length : ℚ) * PERCENTILE_50_FACTOR)) 0),
           pyRoundTo LATENCY_PRECISION_DIGITS (s.getD (s.length - 1) 0)⟩) ∧
    getTransferStats [100, 300, 200] =
      ⟨3, pyRoundTo 1 (100/1024), pyRoundTo 1 (200/1024),
        pyRoundTo 1 (300/1024)⟩ ∧
    getTransferStats [100, 300, 200] = ⟨3, 1/10, 1/5, 3/10⟩ := by
  refine ⟨?_, ?_, ?_, ?_⟩
  · intro l h
    refine ⟨sortDesc (l.filter (fun x => x ≠ UNSET_THROUGHPUT_KBPS)),
      List.perm_insertionSort _ _, List.sorted_insertionSort _ _, ?_⟩
    rw [getTransferStats]
    unfold getTransferStatsD
    dsimp only
    split_ifs with hcond
    · exact absurd hcond h
    · rw [← percentileIndex_eq_natFloor]
  · intro l h
    refine ⟨sortAsc (l.filter (fun x => x ≠ UNSET_LATENCY)),
      List.perm_insertionSort _ _, List.sorted_insertionSort _ _, ?_⟩
    rw [getLatencyStats]
    unfold getLatencyStatsD
    dsimp only
    split_ifs with hcond
    · exact absurd hcond h
    · rw [← percentileIndex_eq_natFloor]
  · norm_num [getTransferStats, getTransferStatsD, sortDesc, convertKbpsToMbps,
      percentileIndex, pyIntTrunc, PERCENTILE_50_FACTOR,
      UNSET_THROUGHPUT_KBPS, List.insertionSort, List.orderedInsert,
      List.filter, List.cons_ne_nil]
  · norm_num [getTransferStats, getTransferStatsD, sortDesc, convertKbpsToMbps,
      percentileIndex, pyIntTrunc, pyRoundTo, pyRoundHalfEven,
      PERCENTILE_50_FACTOR, UNSET_THROUGHPUT_KBPS, List.insertionSort,
      List.orderedInsert, List.filter, List.cons_ne_nil]

/-- Witness for C3 at a concrete input: the descending-sorted list for the
series `[100, 300, 200]` exists and the computed statistics match it. -/
theorem transfer_stats_descending_median_witness :
    (∃ s : List ℚ,
      s.Perm (([100, 300, 200] : List ℚ).filter
        (fun x => x ≠ UNSET_THROUGHPUT_KBPS)) ∧
      s.Sorted (fun a b => b ≤ a) ∧
      getTransferStats [100, 300, 200] =
        ⟨s.length,
         convertKbpsToMbps (s.getD (s.length - 1) 0),
         convertKbpsToMbps
           (s.getD (Nat.floor ((s.length : ℚ) * PERCENTILE_50_FACTOR)) 0),
         convertKbpsToMbps (s.getD 0 0)⟩) ∧
    (∃ s : List ℚ,
      s.Perm (([10, 20] : List ℚ).filter (fun x => x ≠ UNSET_LATENCY)) ∧
      s.Sorted (fun a b => a ≤ b) ∧
      getLatencyStats [10, 20] =
        ⟨s.length,
         pyRoundTo LATENCY_PRECISION_DIGITS (s.getD 0 0),
         pyRoundTo LATENCY_PRECISION_DIGITS
           (s.getD (Nat.floor ((s.length : ℚ) * PERCENTILE_50_FACTOR)) 0),
         pyRoundTo LATENCY_PRECISION_DIGITS (s.getD (s.length - 1) 0)⟩) :=
  ⟨transfer_stats_descending_median.1 [100, 300, 200] (by decide),
    transfer_stats_descending_median.2.1 [10, 20] (by decide)⟩

/-- C4 (amended): latency statistics are computed over the non-sentinel
values sorted ascending, with count the number of measured values and
min/median/max taken from the first element, the element at index
`floor(count × 0.5)`, and the last element — each rounded to the latency
reporting precision; for `[10, 20, 30, 40, 50]` the median is exactly 30. -/
theorem latency_stats_ascending_median :
    (∀ l : List ℚ,
      l.filter (fun x => x ≠ UNSET_LATENCY) ≠ [] →
      ∃ s : List ℚ,
        s.Perm (l.filter (fun x => x ≠ UNSET_LATENCY)) ∧
        s.Sorted (fun a b => a ≤ b) ∧
        (getLatencyStats l).success_count = s.length ∧
        (getLatencyStats l).min_val =
          pyRoundTo LATENCY_PRECISION_DIGITS (s.getD 0 0) ∧
        (getLatencyStats l).median_val =
          pyRoundTo LATENCY_PRECISION_DIGITS
            (s.getD (Nat.floor ((s.length : ℚ) * PERCENTILE_50_FACTOR)) 0) ∧
        (getLatencyStats l).max_val =
          pyRoundTo LATENCY_PRECISION_DIGITS (s.getD (s.length - 1) 0)) ∧
    getLatencyStats [10, 20, 30, 40, 50] = ⟨5, 10, 30, 50⟩ := by
  constructor
  · intro l h
    refine ⟨sortAsc (l.filter (fun x => x ≠ UNSET_LATENCY)),
      List.perm_insertionSort _ _, List.sorted_insertionSort _ _, ?_⟩
    rw [getLatencyStats]
    unfold getLatencyStatsD
    dsimp only
    split_ifs with hcond
    · exact absurd hcond h
    · rw [← percentileIndex_eq_natFloor]
      exact ⟨rfl, rfl, rfl, rfl⟩
  · norm_num [getLatencyStats, getLatencyStatsD, sortAsc,
      percentileIndex_eq_half, pyRoundTo, pyRoundHalfEven,
      UNSET_LATENCY, LATENCY_PRECISION_DIGITS, List.insertionSort,
      List.orderedInsert, List.filter, List.cons_ne_nil]

/-- Witness for C4 at a concrete input: the ascending-sorted list for the
series `[30, 10, 20]` exists and the computed statistics match it. -/
theorem latency_stats_ascending_median_witness :
    ∃ s : List ℚ,
      s.Perm (([30, 10, 20] : List ℚ).filter (fun x => x ≠ UNSET_LATENCY)) ∧
      s.Sorted (fun a b => a ≤ b) ∧
      (getLatencyStats [30, 10, 20]).success_count = s.length ∧
      (getLatencyStats [30, 10, 20]).min_val =
        pyRoundTo LATENCY_PRECISION_DIGITS (s.getD 0 0) ∧
      (getLatencyStats [30, 10, 20]).median_val =
        pyRoundTo LATENCY_PRECISION_DIGITS
          (s.getD (Nat.floor ((s.length : ℚ) * PERCENTILE_50_FACTOR)) 0) ∧
      (getLatencyStats [30, 10, 20]).max_val =
        pyRoundTo LATENCY_PRECISION_DIGITS (s.getD (s.length - 1) 0) :=
  latency_stats_ascending_median.1 [30, 10, 20] (by decide)

/-- Counterexample to C4 as stated: for the one-element series `[0.25]` the
recorded minimum is not the first element `0.25` itself — the code reports
`round(0.25, 1) = 0.2` (the statistics are rounded to
`LATENCY_PRECISION_DIGITS` decimals before being returned). -/
theorem latency_stats_counterexample :
    getLatencyStats [1/4] = ⟨1, 1/5, 1/5, 1/5⟩ ∧
    getLatencyStats [1/4] ≠ ⟨1, 1/4, 1/4, 1/4⟩ := by
  have h : getLatencyStats [1/4] = ⟨1, 1/5, 1/5, 1/5⟩ := by
    norm_num [getLatencyStats, getLatencyStatsD, sortAsc,
      percentileIndex_eq_half, pyRoundTo, pyRoundHalfEven,
      UNSET_LATENCY, LATENCY_PRECISION_DIGITS, List.insertionSort,
      List.orderedInsert, List.filter, List.cons_ne_nil]
  refine ⟨h, ?_⟩
  rw [h]
  norm_num [TestResultStats.mk.injEq]

/-- A `SingleTestResult` record carrying a given failure reason (all other
fields at their dataclass defaults). -/
def resWithReason (r : SingleTestFailureReason) : SingleTestResult :=
  { failure_reason := r }

/-- The count of successful iterations among `s` successes followed by `f`
failures with reason `r ≠ SUCCESS` is exactly `s`. -/
theorem successCount_replicate (s f : ℕ) (r : SingleTestFailureReason)
    (h : r ≠ .SUCCESS) :
    successCount (List.replicate s (resWithReason .SUCCESS) ++
      List.replicate f (resWithReason r)) = s := by
  unfold successCount
  rw [List.filter_append, List.filter_replicate, List.filter_replicate]
  simp [resWithReason, h]

/-- C2: the run passes iff the number of iterations with failure reason
`SUCCESS` reaches `floor(performance_test_iterations × success_rate_target)`
(non-strict threshold); with 10 iterations and target 0.8, exactly 8
successes passes and 7 successes fails. -/
theorem success_rate_threshold :
    (∀ (n : ℕ) (results : List SingleTestResult),
      summaryPassed n results = true ↔
        Nat.floor ((n : ℚ) * SUCCESS_RATE_TARGET) ≤ successCount results) ∧
    summaryPassed 10 (List.replicate 8 (resWithReason .SUCCESS) ++
      List.replicate 2 (resWithReason .FILE_TRANSFER_FAIL)) = true ∧
    summaryPassed 10 (List.replicate 7 (resWithReason .SUCCESS) ++
      List.replicate 3 (resWithReason .FILE_TRANSFER_FAIL)) = false := by
  have hiff : ∀ (n : ℕ) (results : List SingleTestResult),
      summaryPassed n results = true ↔
        Nat.floor ((n : ℚ) * SUCCESS_RATE_TARGET) ≤ successCount results := by
    intro n results
    have h0 : (0 : ℚ) ≤ (n : ℚ) * SUCCESS_RATE_TARGET := by
      rw [SUCCESS_RATE_TARGET]
      positivity
    rw [summaryPassed, decide_eq_true_iff, pyIntTrunc_of_nonneg h0,
      ← Int.floor_toNat, Int.toNat_le]
  refine ⟨hiff, ?_, ?_⟩
  · rw [hiff, successCount_replicate 8 2 _ (by decide)]
    rw [SUCCESS_RATE_TARGET]
    norm_num
  · rw [Bool.eq_false_iff, Ne, hiff,
      successCount_replicate 7 3 _ (by decide)]
    rw [SUCCESS_RATE_TARGET]
    norm_num

/-- Witness for C2 at a concrete input: for 5 iterations and 4 recorded
successes, the pass verdict agrees with the floor threshold `⌊5 × 0.8⌋ = 4`. -/
theorem success_rate_threshold_witness :
    summaryPassed 5 (List.replicate 4 (resWithReason .SUCCESS)) = true ↔
      Nat.floor ((5 : ℚ) * SUCCESS_RATE_TARGET) ≤
        successCount (List.replicate 4 (resWithReason .SUCCESS)) :=
  success_rate_threshold.1 5 (List.replicate 4 (resWithReason .SUCCESS))

/-- A concrete triage-tip table used to instantiate witnesses and
counterexamples (the tip strings themselves are irrelevant to the claims). -/
def sampleTips : TriageTips where
  common := fun _ => "tip"
  mediumUpgrade := "tip"
  fileTransfer := "tip"
  throughputLow := "tip"

/-- C1: when a prior BT connection was used and its failure reason is not
`SUCCESS`, the iteration's recorded failure reason is the prior-BT reason
(whatever the active connection's own reason, including `SUCCESS`) and
`is_failed_with_prior_bt` is set; otherwise the recorded failure reason is
the active connection's reason. -/
theorem prior_bt_failure_overrides :
    ∀ (usePriorBt : Bool) (prior active : SingleTestFailureReason)
      (tips : TriageTips) (iter : ℕ) (r : SingleTestResult),
      (usePriorBt = true → prior ≠ .SUCCESS →
        (writeCurrentTestReport usePriorBt prior active tips iter
          r).failure_reason = prior ∧
        (writeCurrentTestReport usePriorBt prior active tips iter
          r).is_failed_with_prior_bt = true) ∧
      (¬(usePriorBt = true ∧ prior ≠ .SUCCESS) →
        (writeCurrentTestReport usePriorBt prior active tips iter
          r).failure_reason = active) := by
  intro u p a tips i r
  unfold writeCurrentTestReport
  dsimp only
  split_ifs with hc
  · exact ⟨fun _ _ => ⟨rfl, rfl⟩, fun h => absurd hc h⟩
  · refine ⟨fun hu hp => absurd ⟨hu, hp⟩ hc, fun _ => rfl⟩

/-- Witness for C1 at a concrete input: a prior-BT failure
(`FILE_TRANSFER_FAIL`) masks an active connection that succeeded, and
without a prior BT connection the active reason is recorded. -/
theorem prior_bt_failure_overrides_witness :
    ((writeCurrentTestReport true .FILE_TRANSFER_FAIL .SUCCESS sampleTips 0
      {}).failure_reason = .FILE_TRANSFER_FAIL ∧
     (writeCurrentTestReport true .FILE_TRANSFER_FAIL .SUCCESS sampleTips 0
      {}).is_failed_with_prior_bt = true) ∧
    (writeCurrentTestReport false .UNINITIALIZED .FILE_TRANSFER_FAIL sampleTips
      0 {}).failure_reason = .FILE_TRANSFER_FAIL :=
  ⟨(prior_bt_failure_overrides true .FILE_TRANSFER_FAIL .SUCCESS sampleTips 0
      {}).1 rfl (by decide),
    (prior_bt_failure_overrides false .UNINITIALIZED .FILE_TRANSFER_FAIL
      sampleTips 0 {}).2 (by simp)⟩

/-- Counterexample to C9 as stated: with no prior BT connection and active
failure reason `FILE_TRANSFER_FAIL`, the recorded message is
`FILE_TRANSFER_FAIL - tip` — it is neither `PASS` nor of the claimed form
`FAIL: <reason-name> - <triage tip>` (the `FAIL: ` prefix is absent for this
reason, as it is for `FILE_TRANSFER_THROUGHPUT_LOW` and the default case). -/
theorem result_message_counterexample :
    getCurrentTestResultMessage false .UNINITIALIZED .FILE_TRANSFER_FAIL
      sampleTips = "FILE_TRANSFER_FAIL - tip" ∧
    "FILE_TRANSFER_FAIL - tip" ≠ "PASS" ∧
    "FILE_TRANSFER_FAIL - tip" ≠
      "FAIL: " ++ reasonName .FILE_TRANSFER_FAIL ++ " - " ++
        sampleTips.common .FILE_TRANSFER_FAIL ∧
    "FILE_TRANSFER_FAIL - tip" ≠
      "FAIL: " ++ reasonName .FILE_TRANSFER_FAIL ++ " - " ++
        sampleTips.fileTransfer := by
  refine ⟨?_, ?_, ?_, ?_⟩ <;> first | rfl | decide

/-- C9 (amended): per-iteration messages are `PASS` on success;
`FAIL: <reason-name> - <tip>` only for `SOURCE_WIFI_CONNECTION` and
`WIFI_MEDIUM_UPGRADE`; `FAIL (The prior BT connection): <reason-name> -
<tip>` for a prior-BT failure; and bare `<reason-name> - <tip>` (no `FAIL: `
prefix) for every other failure reason. The run-level message is `PASS` or
`FAIL: low successes - <count>`. -/
theorem result_message_forms :
    (∀ (u : Bool) (p a : SingleTestFailureReason) (tips : TriageTips),
      (u = true → p ≠ .SUCCESS →
        getCurrentTestResultMessage u p a tips =
          "FAIL (The prior BT connection): " ++ reasonName p ++ " - " ++
            tips.common p) ∧
      (¬(u = true ∧ p ≠ .SUCCESS) →
        (a = .SUCCESS → getCurrentTestResultMessage u p a tips = "PASS") ∧
        (a = .SOURCE_WIFI_CONNECTION →
          getCurrentTestResultMessage u p a tips =
            "FAIL: " ++ reasonName a ++ " - " ++ tips.common a) ∧
        (a = .WIFI_MEDIUM_UPGRADE →
          getCurrentTestResultMessage u p a tips =
            "FAIL: " ++ reasonName a ++ " - " ++ tips.mediumUpgrade) ∧
        (a = .FILE_TRANSFER_FAIL →
          getCurrentTestResultMessage u p a tips =
            reasonName a ++ " - " ++ tips.fileTransfer) ∧
        (a = .FILE_TRANSFER_THROUGHPUT_LOW →
          getCurrentTestResultMessage u p a tips =
            reasonName a ++ " - " ++ tips.throughputLow) ∧
        (a = .UNINITIALIZED ∨ a = .TARGET_WIFI_CONNECTION →
          getCurrentTestResultMessage u p a tips =
            reasonName a ++ " - " ++ tips.common a))) ∧
    (∀ (n : ℕ) (results : List SingleTestResult),
      summaryFinalResultMessage n results = "PASS" ∨
      summaryFinalResultMessage n results =
        "FAIL: low successes - " ++ toString (successCount results)) := by
  constructor
  · intro u p a tips
    constructor
    · intro hu hp
      unfold getCurrentTestResultMessage
      rw [if_pos ⟨hu, hp⟩]
    · intro hc
      unfold getCurrentTestResultMessage
      rw [if_neg hc]
      refine ⟨fun ha => ?_, fun ha => ?_, fun ha => ?_, fun ha => ?_,
        fun ha => ?_, fun ha => ?_⟩
      · rw [if_pos ha]
      · subst ha
        rfl
      · subst ha
        rfl
      · subst ha
        rfl
      · subst ha
        rfl
      · rcases ha with ha | ha <;> subst ha <;> rfl
  · intro n results
    unfold summaryFinalResultMessage
    by_cases h : summaryPassed n results = true
    · left
      rw [if_pos h]
    · right
      rw [if_neg h]

/-- Witness for C9 (amended) at concrete inputs: the four message shapes at
representative failure reasons, and the run-level failure message for an
empty run of one required iteration. -/
theorem result_message_forms_witness :
    getCurrentTestResultMessage true .FILE_TRANSFER_FAIL .SUCCESS sampleTips =
      "FAIL (The prior BT connection): " ++ reasonName .FILE_TRANSFER_FAIL ++
        " - " ++ sampleTips.common .FILE_TRANSFER_FAIL ∧
    getCurrentTestResultMessage false .UNINITIALIZED .SUCCESS sampleTips =
      "PASS" ∧
    getCurrentTestResultMessage false .UNINITIALIZED .SOURCE_WIFI_CONNECTION
      sampleTips = "FAIL: " ++ reasonName .SOURCE_WIFI_CONNECTION ++ " - " ++
        sampleTips.common .SOURCE_WIFI_CONNECTION ∧
    getCurrentTestResultMessage false .UNINITIALIZED .TARGET_WIFI_CONNECTION
      sampleTips = reasonName .TARGET_WIFI_CONNECTION ++ " - " ++
        sampleTips.common .TARGET_WIFI_CONNECTION :=
  ⟨(result_message_forms.1 true .FILE_TRANSFER_FAIL .SUCCESS sampleTips).1
      rfl (by decide),
    ((result_message_forms.1 false .UNINITIALIZED .SUCCESS sampleTips).2
      (by simp)).1 rfl,
    ((result_message_forms.1 false .UNINITIALIZED .SOURCE_WIFI_CONNECTION
      sampleTips).2 (by simp)).2.1 rfl,
    ((result_message_forms.1 false .UNINITIALIZED .TARGET_WIFI_CONNECTION
      sampleTips).2 (by simp)).2.2.2.2.2 (Or.inr rfl)⟩

/-- C6: the throughput benchmark is recomputed and compared only when the
transfer finished with failure reason `SUCCESS`; a measured throughput below
the benchmark then sets `FILE_TRANSFER_THROUGHPUT_LOW` and raises the hard
assertion, which makes the iteration exit abnormally; when the transfer
itself failed the check never runs and the benchmark is not recomputed. -/
theorem throughput_check_after_success :
    (∀ (reason : SingleTestFailureReason) (measured benchmark : ℤ),
      (reason ≠ .SUCCESS →
        transferThresholdCheck reason measured benchmark =
          ⟨reason, none, false⟩) ∧
      (reason = .SUCCESS →
        (transferThresholdCheck reason measured
          benchmark).benchmarkComputed = some benchmark) ∧
      (reason = .SUCCESS → measured < benchmark →
        transferThresholdCheck reason measured benchmark =
          ⟨.FILE_TRANSFER_THROUGHPUT_LOW, some benchmark, true⟩) ∧
      (reason = .SUCCESS → benchmark ≤ measured →
        transferThresholdCheck reason measured benchmark =
          ⟨.SUCCESS, some benchmark, false⟩)) ∧
    (∀ (cfg : IterationConfig) (o : IterationOutcomes),
      o.transferReason = .SUCCESS → o.measuredKbps < o.benchmarkKbps →
        (runIteration cfg o).2 = false) := by
  constructor
  · intro reason measured benchmark
    refine ⟨fun h => ?_, fun h => ?_, fun h hlt => ?_, fun h hge => ?_⟩
    · unfold transferThresholdCheck
      rw [if_neg h]
    · subst h
      unfold transferThresholdCheck
      rw [if_pos rfl]
      split_ifs <;> rfl
    · subst h
      unfold transferThresholdCheck
      rw [if_pos rfl, if_pos hlt]
    · subst h
      unfold transferThresholdCheck
      rw [if_pos rfl, if_neg (not_lt.2 hge)]
  · intro cfg o h1 h2
    unfold runIteration
    split_ifs with g1 g2 g3 g4 g5 g6 <;>
      first | rfl | exact absurd ⟨h1, h2⟩ g5

/-- Witness for C6 at concrete inputs: a failed transfer leaves the reason
untouched with no benchmark computed; a successful transfer below benchmark
raises the assertion; one at or above benchmark passes; and the assertion
aborts a concrete iteration before its teardown. -/
theorem throughput_check_after_success_witness :
    transferThresholdCheck .FILE_TRANSFER_FAIL 50 100 =
      ⟨.FILE_TRANSFER_FAIL, none, false⟩ ∧
    transferThresholdCheck .SUCCESS 50 100 =
      ⟨.FILE_TRANSFER_THROUGHPUT_LOW, some 100, true⟩ ∧
    transferThresholdCheck .SUCCESS 100 100 = ⟨.SUCCESS, some 100, false⟩ ∧
    (runIteration ⟨false, false⟩
      ⟨true, false, true, false, false, .SUCCESS, 50, 100⟩).2 = false :=
  ⟨(throughput_check_after_success.1 .FILE_TRANSFER_FAIL 50 100).1 (by decide),
    (throughput_check_after_success.1 .SUCCESS 50 100).2.2.1 rfl (by decide),
    (throughput_check_after_success.1 .SUCCESS 100 100).2.2.2 rfl (by decide),
    throughput_check_after_success.2 ⟨false, false⟩
      ⟨true, false, true, false, false, .SUCCESS, 50, 100⟩ rfl (by decide)⟩

/-- Counterexample to C8 as stated: a concrete iteration in which every
stage succeeds but the measured throughput (50 KBps) is below the benchmark
(100 KBps): `asserts.fail` raises out of the method and neither
`disconnect_endpoint()` teardown call executes. -/
theorem teardown_counterexample :
    runIteration ⟨true, true⟩
      ⟨true, false, true, false, false, .SUCCESS, 50, 100⟩ = ([], false) ∧
    CallEvent.activeDisconnect ∉
      (runIteration ⟨true, true⟩
        ⟨true, false, true, false, false, .SUCCESS, 50, 100⟩).1 ∧
    CallEvent.priorBtDisconnect ∉
      (runIteration ⟨true, true⟩
        ⟨true, false, true, false, false, .SUCCESS, 50, 100⟩).1 := by
  refine ⟨?_, ?_, ?_⟩ <;> decide

/-- C8 (amended): the two `disconnect_endpoint()` teardown calls execute
exactly on the iteration's normal-completion path — both run (the prior-BT
one only when a prior BT session exists) iff no stage raised and the
throughput threshold check passed; on every abnormal exit path (any stage
failure, including the threshold assertion) both are skipped, because they
sit after the `try`/`finally` blocks rather than inside a cleanup block. -/
theorem teardown_on_success_path :
    ∀ (cfg : IterationConfig) (o : IterationOutcomes),
      ((runIteration cfg o).2 = true →
        (runIteration cfg o).1 =
          (if cfg.usePriorBt then [CallEvent.priorBtDisconnect] else []) ++
            [CallEvent.activeDisconnect]) ∧
      ((runIteration cfg o).2 = false → (runIteration cfg o).1 = []) ∧
      ((runIteration cfg o).2 = true ↔
        (cfg.hasWifiSsid = true → o.sourceWifiOk = true) ∧
        (cfg.usePriorBt = true → o.priorStartRaises = false) ∧
        (cfg.hasWifiSsid = true → o.targetWifiOk = true) ∧
        o.activeStartRaises = false ∧
        ¬(o.transferReason = .SUCCESS ∧ o.measuredKbps < o.benchmarkKbps) ∧
        o.transferRaises = false) := by
  intro cfg o
  unfold runIteration
  split_ifs <;>
    simp_all [not_and, Bool.not_eq_false, Bool.not_eq_true]

/-- Witness for C8 (amended) at a concrete input: a fully successful
iteration with a prior BT session executes both disconnect calls, in order. -/
theorem teardown_on_success_path_witness :
    (runIteration ⟨true, true⟩
      ⟨true, false, true, false, false, .SUCCESS, 200, 100⟩).1 =
      [CallEvent.priorBtDisconnect, CallEvent.activeDisconnect] :=
  (teardown_on_success_path ⟨true, true⟩
    ⟨true, false, true, false, false, .SUCCESS, 200, 100⟩).1 (by decide)

/-- The device capabilities used in the C5 witness and counterexample: two
streams (also in DBS mode), 1000 Mb/s declared at 2.4 GHz, 866 Mb/s at
5 GHz. -/
def c5Dev : DeviceCapabilities := ⟨2, 2, 1000, 866⟩

/-- Counterexample to C5 as stated: on a 2.4-GHz-medium scenario that forces
MCC, the code returns the unadjusted band-limited base value times 1024
(here 7 × 1024 = 7168) — the MCC penalty multiplier is never applied on the
2G path, while the claim demands `int(7 × mccMultiplier) × 1024 = 1024`. -/
theorem benchmark_counterexample :
    getThroughputBenchmark specConstants c5Dev c5Dev 2437 (-1) true false true
      .BT_ONLY = 7168 ∧
    mccStep specConstants true (base2g specConstants c5Dev c5Dev) * 1024 =
      1024 ∧
    getThroughputBenchmark specConstants c5Dev c5Dev 2437 (-1) true false true
        .BT_ONLY ≠
      lanCapStep specConstants .BT_ONLY (hotspotStep specConstants .BT_ONLY
        (mccStep specConstants true (base2g specConstants c5Dev c5Dev))) *
        1024 := by
  have h1 : getThroughputBenchmark specConstants c5Dev c5Dev 2437 (-1) true
      false true .BT_ONLY = 7168 := by
    norm_num [getThroughputBenchmark, specConstants, c5Dev, pyIntTrunc,
      min_def]
  have h2 : mccStep specConstants true (base2g specConstants c5Dev c5Dev) *
      1024 = 1024 := by
    norm_num [mccStep, base2g, specConstants, c5Dev, pyIntTrunc, min_def]
  refine ⟨h1, h2, ?_⟩
  rw [h1, lanCapStep, hotspotStep, if_neg (by decide), if_neg (by decide), h2]
  decide

/-- C5 (amended): on the 5-GHz path the returned benchmark is the
band-limited base value with the scenario adjustments applied in order — MCC
penalty multiplication when MCC is forced, hotspot penalty multiplication
when the negotiated medium is Wi-Fi Hotspot, a `min` cap at the Wi-Fi-LAN
ceiling when it is Wi-Fi LAN (so a LAN result never exceeds the ceiling
times 1024) — times 1024; on the 2.4-GHz path the benchmark is the
band-limited base value times 1024 with none of the adjustments applied. -/
theorem benchmark_scenario_adjustments :
    ∀ (c : BenchmarkConstants) (disc adv : DeviceCapabilities)
      (staFreq staLinkSpeed : ℤ) (isDbs isMcc : Bool)
      (medium : NearbyConnectionMedium),
      getThroughputBenchmark c disc adv staFreq staLinkSpeed false isDbs
          isMcc medium =
        lanCapStep c medium (hotspotStep c medium (mccStep c isMcc
          (base5g c disc adv staFreq staLinkSpeed isDbs))) * 1024 ∧
      (medium = .WIFI_LAN →
        getThroughputBenchmark c disc adv staFreq staLinkSpeed false isDbs
            isMcc medium ≤ c.wifiLanThroughputMaxMbps * 1024) ∧
      getThroughputBenchmark c disc adv staFreq staLinkSpeed true isDbs isMcc
          medium = base2g c disc adv * 1024 := by
  intro c disc adv f s dbs mcc medium
  have h5 : getThroughputBenchmark c disc adv f s false dbs mcc medium =
      lanCapStep c medium (hotspotStep c medium (mccStep c mcc
        (base5g c disc adv f s dbs))) * 1024 := by
    rfl
  refine ⟨h5, ?_, rfl⟩
  intro hm
  subst hm
  rw [h5, lanCapStep, if_pos rfl]
  exact mul_le_mul_of_nonneg_right (min_le_right _ _) (by norm_num)

/-- Witness for C5 (amended) at concrete inputs: the spec's end-to-end
Wi-Fi-LAN scenario (5G-capable peers, 2 streams, 866 Mb/s, STA at 5180 MHz,
no link-speed cap) produces the adjusted value capped at the LAN ceiling
times 1024, and a 2.4-GHz scenario returns the unadjusted base times 1024. -/
theorem benchmark_scenario_adjustments_witness :
    getThroughputBenchmark specConstants c5Dev c5Dev 5180 (-1) false false
        false .WIFI_LAN =
      lanCapStep specConstants .WIFI_LAN (hotspotStep specConstants .WIFI_LAN
        (mccStep specConstants false
          (base5g specConstants c5Dev c5Dev 5180 (-1) false))) * 1024 ∧
    getThroughputBenchmark specConstants c5Dev c5Dev 5180 (-1) false false
        false .WIFI_LAN ≤ specConstants.wifiLanThroughputMaxMbps * 1024 ∧
    getThroughputBenchmark specConstants c5Dev c5Dev 2437 (-1) true false
        false .BT_ONLY = base2g specConstants c5Dev c5Dev * 1024 :=
  ⟨(benchmark_scenario_adjustments specConstants c5Dev c5Dev 5180 (-1) false
      false .WIFI_LAN).1,
    (benchmark_scenario_adjustments specConstants c5Dev c5Dev 5180 (-1) false
      false .WIFI_LAN).2.1 rfl,
    (benchmark_scenario_adjustments specConstants c5Dev c5Dev 2437 (-1) false
      false .BT_ONLY).2.2⟩

end Betocq
